import Mathlib

/-
  Verification development for the "Two-Man Spades" game engine
  (Flask app `app.py` with `utilities/gameplay_logic.py`,
  `utilities/custom_rules.py` and `utilities/computer_logic.py`).

  The Python sources are shallowly embedded: dictionaries become
  structures, mutation becomes functional update, Python ints become
  Lean Int.  Python floor division and modulus agree with Lean's
  Int `/` and `%` (Euclidean) at every use site in this code, because
  every divisor that occurs (10, 7, 5, 2) is positive.
  Presentation-only pieces of state (message strings, explanation
  strings, the debug toggles, timers) are omitted; every field that
  participates in control flow or scoring is carried.
-/

namespace TwoManSpades

/-! ## Card model (gameplay_logic.py) -/

inductive Suit
  | spades | hearts | diamonds | clubs
deriving DecidableEq, Repr

inductive Rank
  | r2 | r3 | r4 | r5 | r6 | r7 | r8 | r9 | r10 | J | Q | K | A
deriving DecidableEq, Repr

/-- gameplay_logic.get_card_value: trick-play value of a rank, Ace high. -/
def get_card_value : Rank → Int
  | .A => 14
  | .K => 13
  | .Q => 12
  | .J => 11
  | .r10 => 10
  | .r9 => 9
  | .r8 => 8
  | .r7 => 7
  | .r6 => 6
  | .r5 => 5
  | .r4 => 4
  | .r3 => 3
  | .r2 => 2

/-- A card as built by gameplay_logic.create_deck.  The source carries the
rank, the suit and a `value` field always computed by get_card_value from
the rank, so the value is represented as a derived function. -/
structure Card where
  rank : Rank
  suit : Suit
deriving DecidableEq, Repr

def Card.value (c : Card) : Int := get_card_value c.rank

/-- gameplay_logic.sort_hand's suit-group order: clubs, diamonds, hearts, spades. -/
def suit_order : Suit → Int
  | .clubs => 0
  | .diamonds => 1
  | .hearts => 2
  | .spades => 3

/-- Sort key comparison used by gameplay_logic.sort_hand:
(suit_order, value) lexicographically, non-strict. -/
def sortKeyLe (a b : Card) : Bool :=
  decide (suit_order a.suit < suit_order b.suit) ||
    (decide (suit_order a.suit = suit_order b.suit) && decide (a.value ≤ b.value))

/-- Stable insertion of a card into an already sorted list (the card goes
in front of the first element it is ≤-related to). -/
def insertSorted (c : Card) : List Card → List Card
  | [] => [c]
  | d :: rest => if sortKeyLe c d then c :: d :: rest else d :: insertSorted c rest

/-- gameplay_logic.sort_hand: Python's sorted() is the stable sort by the
key (suit_order, value); the stable sort is computed here by stable
insertion sort, which produces the identical list. -/
def sort_hand (hand : List Card) : List Card := hand.foldr insertSorted []

/-! ## Tricks and plays -/

inductive Side
  | player | computer
deriving DecidableEq, Repr

/-- One play inside `current_trick`: the source dict has keys
'player' (which side played) and 'card'. -/
structure Play where
  player : Side
  card : Card
deriving DecidableEq, Repr

/-- gameplay_logic.determine_trick_winner: None unless the trick has
exactly two plays. -/
def determine_trick_winner (trick : List Play) : Option Side :=
  match trick with
  | [first, second] =>
      if first.card.suit = second.card.suit then
        if first.card.value > second.card.value then some first.player
        else some second.player
      else if first.card.suit = .spades then some first.player
      else if second.card.suit = .spades then some second.player
      else some first.player
  | _ => none

/-- gameplay_logic.is_valid_play. -/
def is_valid_play (card : Card) (hand : List Card) (trick : List Play)
    (spades_broken : Bool) : Bool :=
  match trick with
  | [] =>
      -- leading: spades may be led only if broken or the hand is all spades
      if card.suit = .spades && !spades_broken then
        hand.all (fun c => decide (c.suit = Suit.spades))
      else true
  | t0 :: _ =>
      -- following: must follow the lead suit when holding it
      let lead_suit := t0.card.suit
      if hand.any (fun c => decide (c.suit = lead_suit)) then
        decide (card.suit = lead_suit)
      else true

/-! ## custom_rules.py: discard values, special cards, discard scoring -/

/-- custom_rules.get_discard_value: Ace counts 1 for discard scoring. -/
def get_discard_value : Rank → Int
  | .A => 1
  | .J => 11
  | .Q => 12
  | .K => 13
  | .r10 => 10
  | .r9 => 9
  | .r8 => 8
  | .r7 => 7
  | .r6 => 6
  | .r5 => 5
  | .r4 => 4
  | .r3 => 3
  | .r2 => 2

/-- custom_rules.is_special_card: (is_special, bags_to_remove). -/
def is_special_card (c : Card) : Bool × Int :=
  if c.rank = .r7 ∧ c.suit = .diamonds then (true, 2)
  else if c.rank = .r10 ∧ c.suit = .clubs then (true, 1)
  else (false, 0)

inductive Parity
  | even | odd
deriving DecidableEq, Repr

structure Eligibility where
  player_eligible : Bool
  computer_eligible : Bool
  player_deficit : Int
  computer_deficit : Int
deriving DecidableEq, Repr

/-- custom_rules.check_blind_bidding_eligibility.  The source also takes a
target_score argument that its body never reads; it is omitted here. -/
def check_blind_bidding_eligibility (player_score computer_score : Int) :
    Eligibility :=
  let player_deficit := computer_score - player_score
  let computer_deficit := player_score - computer_score
  { player_eligible := decide (player_deficit ≥ 100)
    computer_eligible := decide (computer_deficit ≥ 100)
    player_deficit := max 0 player_deficit
    computer_deficit := max 0 computer_deficit }

/-- custom_rules.apply_blind_scoring: both branches double the points
(the base points are already signed). -/
def apply_blind_scoring (base_points blind_bid actual_tricks : Int) : Int :=
  if actual_tricks ≥ blind_bid then base_points * 2
  else base_points * 2

structure DiscardResult where
  player_bonus : Int
  computer_bonus : Int
  total : Int
  is_double : Bool
  winner : Option Side
deriving DecidableEq, Repr

/-- custom_rules.calculate_discard_score_with_winner (the explanation
string the source also builds is presentation-only and omitted). -/
def calculate_discard_score_with_winner (player_discard computer_discard : Option Card)
    (player_parity computer_parity : Parity) : DiscardResult :=
  match player_discard, computer_discard with
  | some p, some c =>
      let player_value := get_discard_value p.rank
      let computer_value := get_discard_value c.rank
      let total := player_value + computer_value
      let is_double := decide (p.suit = c.suit) || decide (p.rank = c.rank)
      let base_points : Int := if is_double then 20 else 10
      let is_total_even := decide (total % 2 = 0)
      if is_total_even && decide (player_parity = Parity.even) then
        { player_bonus := base_points, computer_bonus := 0, total := total
          is_double := is_double, winner := some .player }
      else if !is_total_even && decide (player_parity = Parity.odd) then
        { player_bonus := base_points, computer_bonus := 0, total := total
          is_double := is_double, winner := some .player }
      else if is_total_even && decide (computer_parity = Parity.even) then
        { player_bonus := 0, computer_bonus := base_points, total := total
          is_double := is_double, winner := some .computer }
      else if !is_total_even && decide (computer_parity = Parity.odd) then
        { player_bonus := 0, computer_bonus := base_points, total := total
          is_double := is_double, winner := some .computer }
      else
        { player_bonus := 0, computer_bonus := 0, total := total
          is_double := is_double, winner := none }
  | _, _ =>
      { player_bonus := 0, computer_bonus := 0, total := 0
        is_double := false, winner := none }

structure SpecialDiscardResult where
  player_bag_reduction : Int
  computer_bag_reduction : Int
deriving DecidableEq, Repr

/-- custom_rules.check_special_cards_in_discard (explanation string
omitted).  All found reductions go to the discard winner; the source's
else-branch sends them to the computer whenever the winner is not the
player. -/
def check_special_cards_in_discard (player_discard computer_discard : Option Card)
    (discard_winner : Option Side) : SpecialDiscardResult :=
  let reductionOf : Option Card → Int := fun oc =>
    match oc with
    | some c => (is_special_card c).2
    | none => 0
  let total_reduction := reductionOf player_discard + reductionOf computer_discard
  if total_reduction > 0 then
    match discard_winner with
    | some .player => { player_bag_reduction := total_reduction, computer_bag_reduction := 0 }
    | _ => { player_bag_reduction := 0, computer_bag_reduction := total_reduction }
  else
    { player_bag_reduction := 0, computer_bag_reduction := 0 }

/-- custom_rules.check_special_cards_in_trick: total bag reduction found in
the trick's cards (the winner argument is only used for the omitted
explanation string). -/
def check_special_cards_in_trick (trick : List Play) (_winner : Option Side) : Int :=
  trick.foldl (fun acc play => acc + (is_special_card play.card).2) 0

/-- custom_rules.reduce_bags_safely: bags may go negative, no floor. -/
def reduce_bags_safely (current_bags reduction : Int) : Int :=
  current_bags - reduction

/-! ## custom_rules.py: bag rollover and hand settlement -/

/-- First loop of custom_rules.apply_bags_penalty:
while bags >= 7: score -= 100; bags -= 7; penalty_applied = True. -/
def bagsPenaltyLoop (score bags : Int) (penalty_applied : Bool) : Int × Int × Bool :=
  if h : 7 ≤ bags then bagsPenaltyLoop (score - 100) (bags - 7) true
  else (score, bags, penalty_applied)
termination_by bags.toNat
decreasing_by omega

/-- Second loop of custom_rules.apply_bags_penalty:
while bags <= -5: score += 100; bags += 5; bonus_applied = True. -/
def bagsBonusLoop (score bags : Int) (bonus_applied : Bool) : Int × Int × Bool :=
  if h : bags ≤ -5 then bagsBonusLoop (score + 100) (bags + 5) true
  else (score, bags, bonus_applied)
termination_by (-bags).toNat
decreasing_by omega

/-- custom_rules.apply_bags_penalty:
returns (score, bags, penalty_applied, bonus_applied). -/
def apply_bags_penalty (score bags : Int) : Int × Int × Bool × Bool :=
  let d := bagsPenaltyLoop score bags false
  let u := bagsBonusLoop d.1 d.2.1 false
  (u.1, u.2.1, d.2.2, u.2.2)

/-- The game-state fields read by custom_rules.calculate_hand_scores_with_bags. -/
structure SettleInput where
  player_bid : Int
  computer_bid : Int
  player_tricks : Int
  computer_tricks : Int
  blind_bid : Option Int
  computer_blind_bid : Option Int
  player_bags : Int
  computer_bags : Int
  player_score : Int
  computer_score : Int
deriving DecidableEq, Repr

/-- The fields written or returned by
custom_rules.calculate_hand_scores_with_bags (explanation string omitted). -/
structure SettleOutcome where
  player_hand_points : Int
  computer_hand_points : Int
  player_bags_added : Int
  computer_bags_added : Int
  player_penalty : Bool
  computer_penalty : Bool
  player_bonus : Bool
  computer_bonus : Bool
  new_player_score : Int
  new_computer_score : Int
  new_player_bags : Int
  new_computer_bags : Int
deriving DecidableEq, Repr

/-- custom_rules.calculate_hand_scores_with_bags: end-of-hand settlement.
The source mutates game['player_score'] and friends; here the new values
are returned in the outcome record.  Python's
`game.get('blind_bid') == player_bid and game.get('blind_bid') is not None`
is exactly `blind_bid = some player_bid`. -/
def calculate_hand_scores_with_bags (g : SettleInput) : SettleOutcome :=
  let is_player_blind := g.blind_bid = some g.player_bid
  let is_computer_blind := g.computer_blind_bid = some g.computer_bid
  -- player points
  let pp :=
    if g.player_bid = 0 then
      if g.player_tricks = 0 then ((100 : Int), (0 : Int))
      else ((-100 : Int), g.player_tricks)
    else if g.player_tricks ≥ g.player_bid then
      let pts := g.player_bid * 10
      (if is_player_blind then apply_blind_scoring pts g.player_bid g.player_tricks else pts,
       g.player_tricks - g.player_bid)
    else
      let pts := -(g.player_bid * 10)
      (if is_player_blind then apply_blind_scoring pts g.player_bid g.player_tricks else pts,
       (0 : Int))
  -- computer points
  let cp :=
    if g.computer_bid = 0 then
      if g.computer_tricks = 0 then ((100 : Int), (0 : Int))
      else ((-100 : Int), g.computer_tricks)
    else if g.computer_tricks ≥ g.computer_bid then
      let pts := g.computer_bid * 10
      (if is_computer_blind then apply_blind_scoring pts g.computer_bid g.computer_tricks else pts,
       g.computer_tricks - g.computer_bid)
    else
      let pts := -(g.computer_bid * 10)
      (if is_computer_blind then apply_blind_scoring pts g.computer_bid g.computer_tricks else pts,
       (0 : Int))
  let new_player_bags := g.player_bags + pp.2
  let new_computer_bags := g.computer_bags + cp.2
  let player_score := g.player_score + pp.1
  let computer_score := g.computer_score + cp.1
  let pr := apply_bags_penalty player_score new_player_bags
  let cr := apply_bags_penalty computer_score new_computer_bags
  { player_hand_points := pp.1
    computer_hand_points := cp.1
    player_bags_added := pp.2
    computer_bags_added := cp.2
    player_penalty := pr.2.2.1
    computer_penalty := cr.2.2.1
    player_bonus := pr.2.2.2
    computer_bonus := cr.2.2.2
    new_player_score := pr.1
    new_computer_score := cr.1
    new_player_bags := pr.2.1
    new_computer_bags := cr.2.1 }

/-! ## Display score and game-over check -/

/-- app.py get_display_score (the identical inline copy calc_display_score
lives in gameplay_logic.check_game_over): folds non-negative bags into the
ones digit of the score; negative bags leave the base score unchanged.
Python's floor division // 10 equals Lean's Int division here. -/
def get_display_score (base_score bags : Int) : Int :=
  if bags ≥ 0 then
    if base_score < 0 then (base_score / 10) * 10 - bags
    else (base_score / 10) * 10 + bags
  else base_score

/-! ## computer_logic.py: deterministic strategy functions

Python's min()/max() with a key return the first extremum; the fold
helpers below reproduce that.  computer_bidding_brain consults the random
number generator, so routes take its (bid, is_blind) result as an
argument; the discard/lead/follow strategies are fully deterministic and
are embedded as they stand. -/

/-- First index attaining the maximal score, as Python max(key=...) does;
none on an empty list (where Python max raises). -/
def pyArgMax (l : List (Nat × Int)) : Option Nat :=
  match l with
  | [] => none
  | x :: xs => some (xs.foldl (fun best y => if y.2 > best.2 then y else best) x).1

/-- First index attaining the minimal card value (Python min with value key). -/
def pyMinByValue (l : List (Nat × Card)) : Option Nat :=
  match l with
  | [] => none
  | x :: xs => some (xs.foldl (fun best y => if y.2.value < best.2.value then y else best) x).1

/-- First index attaining the maximal card value (Python max with value key). -/
def pyMaxByValue (l : List (Nat × Card)) : Option Nat :=
  match l with
  | [] => none
  | x :: xs => some (xs.foldl (fun best y => if y.2.value > best.2.value then y else best) x).1

def suitCount (hand : List Card) (s : Suit) : Nat :=
  (hand.filter (fun c => decide (c.suit = s))).length

/-- Per-card discard score of computer_logic.computer_discard_strategy with
the module's shipped difficulty constants (SINGLETON_SPECIAL_PRIORITY 1000,
SPECIAL_CARD_PROTECTION -100, SPADE_DISCARD_PENALTY 3,
PARITY_CONSIDERATION 1).  The source's PRIORITY 2 elif repeats the
PRIORITY 1 condition, so the void-creation branch is unreachable and a
singleton non-spade non-special card just falls through, exactly as here. -/
def discardCardScore (computer_hand : List Card) (computer_parity : Parity)
    (card : Card) : Int :=
  let is_singleton := suitCount computer_hand card.suit = 1
  if is_singleton ∧ card.suit ≠ .spades ∧ (is_special_card card).1 then
    1000
  else
    let score0 : Int :=
      if is_singleton ∧ card.suit ≠ .spades then 0
      else if (is_special_card card).1 then -100 else 0
    let score1 : Int :=
      if card.suit = .spades then score0 - card.value * 3
      else score0 + (15 - card.value)
    let dv := get_discard_value card.rank
    if computer_parity = .even ∧ dv % 2 = 1 then score1 + 1
    else if computer_parity = .odd ∧ dv % 2 = 0 then score1 + 1
    else score1

/-- computer_logic.computer_discard_strategy: index of the card with the
highest discard score (first on ties, like Python max); none only for an
empty hand, where Python's max would raise. -/
def computer_discard_strategy (computer_hand : List Card)
    (computer_parity : Parity) : Option Nat :=
  pyArgMax (computer_hand.enum.map
    (fun p => (p.1, discardCardScore computer_hand computer_parity p.2)))

/-- Lead-safety category from computer_logic.computer_lead_strategy:
0 safe, 1 risky, 2 dangerous. -/
def leadDangerCategory (c : Card) : Nat :=
  match c.suit with
  | .clubs =>
      if c.rank = .J ∨ c.rank = .Q ∨ c.rank = .K ∨ c.rank = .A then 2
      else if c.rank = .r8 ∨ c.rank = .r9 ∨ c.rank = .r10 then 1
      else 0
  | .diamonds =>
      if c.rank = .J ∨ c.rank = .Q ∨ c.rank = .K ∨ c.rank = .A then 2
      else if c.rank = .r6 ∨ c.rank = .r7 ∨ c.rank = .r8 then 1
      else 0
  | _ => 0

/-- computer_logic.computer_lead_strategy with LEAD_SAFETY_CONSIDERATION
enabled (its shipped value). -/
def computer_lead_strategy (computer_hand : List Card) (spades_broken : Bool) :
    Option Nat :=
  if computer_hand = [] then none
  else
    let all_sp := computer_hand.all (fun c => decide (c.suit = Suit.spades))
    let valid_leads := computer_hand.enum.filter
      (fun p => decide (p.2.suit ≠ Suit.spades) || spades_broken || all_sp)
    if valid_leads = [] then none
    else
      let safe_leads := valid_leads.filter (fun p => leadDangerCategory p.2 = 0)
      let risky_leads := valid_leads.filter (fun p => leadDangerCategory p.2 = 1)
      let dangerous_leads := valid_leads.filter (fun p => leadDangerCategory p.2 = 2)
      if safe_leads ≠ [] then pyMinByValue safe_leads
      else if risky_leads ≠ [] then pyMinByValue risky_leads
      else pyMinByValue dangerous_leads

/-- computer_logic.computer_follow_strategy with
SPECIAL_CARD_FOLLOWING_PROTECTION enabled (its shipped value).  The source
reads computer_bid and computer_tricks from the game state; they are
passed explicitly. -/
def computer_follow_strategy (computer_hand : List Card) (current_trick : List Play)
    (computer_bid computer_tricks : Int) : Option Nat :=
  match current_trick, computer_hand with
  | [], _ => none
  | _, [] => none
  | t0 :: _, _ :: _ =>
    let bid_already_made := computer_tricks ≥ computer_bid ∧ computer_bid > 0
    let lead_suit := t0.card.suit
    let lead_value := t0.card.value
    let enumerated := computer_hand.enum
    let isSpecial := fun (p : Nat × Card) => (is_special_card p.2).1
    let same_suit := enumerated.filter
      (fun p => decide (p.2.suit = lead_suit) && !(isSpecial p))
    let same_suit_special := enumerated.filter
      (fun p => decide (p.2.suit = lead_suit) && isSpecial p)
    let spades := enumerated.filter
      (fun p => decide (p.2.suit ≠ lead_suit) && decide (p.2.suit = Suit.spades) && !(isSpecial p))
    let spades_special := enumerated.filter
      (fun p => decide (p.2.suit ≠ lead_suit) && decide (p.2.suit = Suit.spades) && isSpecial p)
    let other := enumerated.filter
      (fun p => decide (p.2.suit ≠ lead_suit) && decide (p.2.suit ≠ Suit.spades) && !(isSpecial p))
    let other_special := enumerated.filter
      (fun p => decide (p.2.suit ≠ lead_suit) && decide (p.2.suit ≠ Suit.spades) && isSpecial p)
    let all_same_suit := same_suit ++ same_suit_special
    let all_spades := spades ++ spades_special
    let all_other := other ++ other_special
    if all_same_suit ≠ [] then
      let winners := all_same_suit.filter (fun p => decide (p.2.value > lead_value))
      let losers := all_same_suit.filter (fun p => decide (p.2.value ≤ lead_value))
      let winners_regular := winners.filter (fun p => !(isSpecial p))
      let winners_special := winners.filter isSpecial
      let losers_regular := losers.filter (fun p => !(isSpecial p))
      let losers_special := losers.filter isSpecial
      if bid_already_made then
        if losers_regular ≠ [] then pyMaxByValue losers_regular
        else if losers_special ≠ [] then pyMaxByValue losers_special
        else if winners_regular ≠ [] then pyMinByValue winners_regular
        else pyMinByValue winners_special
      else
        if winners_regular ≠ [] then pyMinByValue winners_regular
        else if winners_special ≠ [] then pyMinByValue winners_special
        else if losers_regular ≠ [] then pyMinByValue losers_regular
        else pyMinByValue losers_special
    else if lead_suit ≠ .spades ∧ all_spades ≠ [] then
      if bid_already_made then
        if all_other ≠ [] then
          let non_special_other := all_other.filter (fun p => !(isSpecial p))
          if non_special_other ≠ [] then pyMinByValue non_special_other
          else pyMinByValue all_other
        else
          let non_special_spades := all_spades.filter (fun p => !(isSpecial p))
          if non_special_spades ≠ [] then pyMinByValue non_special_spades
          else pyMinByValue all_spades
      else
        let non_special_spades := all_spades.filter (fun p => !(isSpecial p))
        if non_special_spades ≠ [] then pyMinByValue non_special_spades
        else pyMinByValue all_spades
    else
      let non_special_other := all_other.filter (fun p => !(isSpecial p))
      if non_special_other ≠ [] then pyMinByValue non_special_other
      else pyMinByValue enumerated

/-- The simple fallback in app.py computer_follow_with_logging, used when
the strategy returns None. -/
def computer_follow_fallback (hand : List Card) (trick : List Play) : Option Nat :=
  match trick with
  | [] => none
  | t0 :: _ =>
    let lead_suit := t0.card.suit
    let lead_value := t0.card.value
    let same_suit := hand.enum.filter (fun p => decide (p.2.suit = lead_suit))
    let sp := hand.enum.filter (fun p => decide (p.2.suit = Suit.spades))
    if same_suit ≠ [] then
      let winners := same_suit.filter (fun p => decide (p.2.value > lead_value))
      if winners ≠ [] then pyMinByValue winners
      else pyMinByValue same_suit
    else if lead_suit ≠ .spades ∧ sp ≠ [] then pyMinByValue sp
    else pyMinByValue hand.enum

/-- The simple fallback in app.py computer_lead_with_logging: minimum by
the key (is-a-spade, value). -/
def computer_lead_fallback (hand : List Card) (spades_broken : Bool) : Option Nat :=
  let all_sp := hand.all (fun c => decide (c.suit = Suit.spades))
  let valid := hand.enum.filter
    (fun p => decide (p.2.suit ≠ Suit.spades) || spades_broken || all_sp)
  match valid with
  | [] => none
  | x :: xs =>
      let keyLt := fun (a b : Nat × Card) =>
        (a.2.suit ≠ Suit.spades ∧ b.2.suit = Suit.spades) ∨
          ((a.2.suit = Suit.spades ↔ b.2.suit = Suit.spades) ∧ a.2.value < b.2.value)
      some (xs.foldl (fun best y => if keyLt y best then y else best) x).1

inductive Winner
  | player | computer | tie
deriving DecidableEq, Repr

/-- gameplay_logic.check_game_over, as a pure function of the fields it
reads: returns none when the game is not over, otherwise the winner the
source writes into game['winner']. -/
def check_game_over (player_score computer_score player_bags computer_bags
    target_score : Int) : Option Winner :=
  let player_display := get_display_score player_score player_bags
  let computer_display := get_display_score computer_score computer_bags
  if player_display - computer_display ≥ 300 then some .player
  else if computer_display - player_display ≥ 300 then some .computer
  else if player_display ≥ target_score ∨ computer_display ≥ target_score then
    if player_display > computer_display then some .player
    else if computer_display > player_display then some .computer
    else if player_score > computer_score then some .player
    else if computer_score > player_score then some .computer
    else if player_bags < 0 ∧ computer_bags ≥ 0 then some .computer
    else if computer_bags < 0 ∧ player_bags ≥ 0 then some .player
    else if player_bags < computer_bags then some .player
    else if computer_bags < player_bags then some .computer
    else some .tie
  else none

/-! ## The game-state aggregate and the app.py action handlers

Request JSON values reach the handlers through data.get(...), which yields
None for a missing key; comparing None (or a string) against an int with
< or > raises TypeError in Python 3.  PyVal models the inbound value and
PyErr.typeError the uncaught exception (surfaced by Flask as a 500, with
the session cookie left unmodified).

The handlers mutate the session dict in place; here each handler returns
the new Game plus a RouteStatus (success for the 200 jsonify(success),
clientError for the 400 jsonify(error) rejections). -/

inductive Phase
  | discard | blind_decision | blind_bidding | bidding | playing
deriving DecidableEq, Repr

structure TrickRecord where
  number : Nat
  player_card : Option Card
  computer_card : Option Card
  winner : Option Side
deriving DecidableEq, Repr

structure Game where
  player_hand : List Card
  computer_hand : List Card
  current_trick : List Play
  player_tricks : Int
  computer_tricks : Int
  spades_broken : Bool
  phase : Phase
  turn : Side
  trick_leader : Option Side
  hand_over : Bool
  game_over : Bool
  winner : Option Winner
  player_discarded : Option Card
  computer_discarded : Option Card
  player_bid : Option Int
  computer_bid : Option Int
  player_score : Int
  computer_score : Int
  player_bags : Int
  computer_bags : Int
  player_trick_special_cards : Int
  computer_trick_special_cards : Int
  hand_number : Int
  target_score : Int
  player_parity : Parity
  computer_parity : Parity
  first_leader : Side
  pending_discard_result : Option DiscardResult
  pending_special_discard_result : Option SpecialDiscardResult
  blind_bidding_available : Bool
  blind_bid : Option Int
  computer_blind_bid : Option Int
  trick_completed : Bool
  trick_winner : Option Side
  trick_history : List TrickRecord
deriving DecidableEq, Repr

/-- gameplay_logic.init_game: deal the first 11 cards of the shuffled deck
to the player and the next 11 to the computer; the shuffle itself is
random, so the shuffled deck is a parameter.  The initial dict has no
trick_completed/trick_winner keys, so game.get reads them as falsy None,
modelled as false/none. -/
def init_game (deck : List Card) (player_parity computer_parity : Parity)
    (first_leader : Side) : Game :=
  { player_hand := sort_hand (deck.take 11)
    computer_hand := sort_hand ((deck.drop 11).take 11)
    current_trick := []
    player_tricks := 0
    computer_tricks := 0
    spades_broken := false
    phase := .discard
    turn := .player
    trick_leader := none
    hand_over := false
    game_over := false
    winner := none
    player_discarded := none
    computer_discarded := none
    player_bid := none
    computer_bid := none
    player_score := 0
    computer_score := 0
    player_bags := 0
    computer_bags := 0
    player_trick_special_cards := 0
    computer_trick_special_cards := 0
    hand_number := 1
    target_score := 300
    player_parity := player_parity
    computer_parity := computer_parity
    first_leader := first_leader
    pending_discard_result := none
    pending_special_discard_result := none
    blind_bidding_available := false
    blind_bid := none
    computer_blind_bid := none
    trick_completed := false
    trick_winner := none
    trick_history := [] }

/-- gameplay_logic.init_new_hand: re-deal preserving scores, bags and
parity; eligibility for blind bidding is computed from the base scores
player_score/computer_score.  The hand number is not touched here (the
next_hand route increments it before calling this). -/
def init_new_hand (g : Game) (deck : List Card) : Game :=
  let next_first_leader : Side :=
    if g.first_leader = .player then .computer else .player
  let elig := check_blind_bidding_eligibility g.player_score g.computer_score
  let initial_phase : Phase :=
    if elig.player_eligible then .blind_decision else .discard
  { g with
    player_hand := sort_hand (deck.take 11)
    computer_hand := sort_hand ((deck.drop 11).take 11)
    current_trick := []
    player_tricks := 0
    computer_tricks := 0
    spades_broken := false
    phase := initial_phase
    turn := .player
    trick_leader := none
    hand_over := false
    player_discarded := none
    computer_discarded := none
    player_bid := none
    computer_bid := none
    player_trick_special_cards := 0
    computer_trick_special_cards := 0
    pending_discard_result := none
    pending_special_discard_result := none
    blind_bidding_available := elig.player_eligible
    blind_bid := none
    computer_blind_bid := none
    first_leader := next_first_leader
    trick_history := [] }

/-- app.py determine_martha_bids_first. -/
def determine_martha_bids_first (g : Game) : Bool :=
  if g.computer_score ≤ g.player_score - 75 then true
  else if |g.player_score - g.computer_score| ≤ 50 ∧ g.hand_number % 2 = 0 then true
  else
    match g.pending_discard_result with
    | some dr => dr.winner = some Side.computer
    | none => false

/-- app.py / gameplay_logic resolve_trick_with_delay: record the trick in
the history, apply special-card bag reductions to the winner immediately,
award the trick, and mark the trick completed without clearing it. -/
def resolve_trick_with_delay (g : Game) : Game :=
  if g.current_trick.length ≠ 2 then g
  else
    let winner := determine_trick_winner g.current_trick
    let player_card := (g.current_trick.find? (fun p => decide (p.player = Side.player))).map Play.card
    let computer_card := (g.current_trick.find? (fun p => decide (p.player = Side.computer))).map Play.card
    let rec0 : TrickRecord :=
      { number := g.trick_history.length + 1
        player_card := player_card
        computer_card := computer_card
        winner := winner }
    let g := { g with trick_history := g.trick_history ++ [rec0] }
    let reduction := check_special_cards_in_trick g.current_trick winner
    let g :=
      if reduction > 0 then
        match winner with
        | some .player =>
            { g with player_bags := reduce_bags_safely g.player_bags reduction
                     player_trick_special_cards := g.player_trick_special_cards + reduction }
        | _ =>
            { g with computer_bags := reduce_bags_safely g.computer_bags reduction
                     computer_trick_special_cards := g.computer_trick_special_cards + reduction }
      else g
    let g :=
      match winner with
      | some .player => { g with player_tricks := g.player_tricks + 1 }
      | _ => { g with computer_tricks := g.computer_tricks + 1 }
    { g with trick_completed := true, trick_winner := winner }

/-- app.py computer_lead_with_logging: no-op on an empty hand; otherwise
play the strategy's choice (or the simple fallback's) as the new trick. -/
def computer_lead (g : Game) : Game :=
  if g.computer_hand = [] then g
  else
    let chosen_idx :=
      match computer_lead_strategy g.computer_hand g.spades_broken with
      | some i => some i
      | none => computer_lead_fallback g.computer_hand g.spades_broken
    match chosen_idx with
    | none => g
    | some i =>
        match g.computer_hand[i]? with
        | none => g  -- unreachable: both choosers return in-range indices
        | some card =>
            { g with
              computer_hand := g.computer_hand.eraseIdx i
              current_trick := [{ player := .computer, card := card }]
              trick_leader := some .computer
              spades_broken := g.spades_broken || decide (card.suit = Suit.spades) }

/-- app.py computer_follow_with_logging: no-op when the trick or the hand
is empty; otherwise play the strategy's choice (or the fallback's) into
the current trick. -/
def computer_follow (g : Game) : Game :=
  if g.current_trick = [] ∨ g.computer_hand = [] then g
  else
    let chosen_idx :=
      match computer_follow_strategy g.computer_hand g.current_trick
          ((g.computer_bid).getD 0) g.computer_tricks with
      | some i => some i
      | none => computer_follow_fallback g.computer_hand g.current_trick
    match chosen_idx with
    | none => g
    | some i =>
        match g.computer_hand[i]? with
        | none => g  -- unreachable: both choosers return in-range indices
        | some card =>
            { g with
              computer_hand := g.computer_hand.eraseIdx i
              current_trick := g.current_trick ++ [{ player := .computer, card := card }]
              spades_broken := g.spades_broken || decide (card.suit = Suit.spades) }

inductive PyVal
  | pyNone
  | pyInt (n : Int)
  | pyStr (s : String)
deriving DecidableEq, Repr

deriving instance DecidableEq for Except

inductive PyErr
  | typeError
deriving DecidableEq, Repr

inductive RouteStatus
  | success
  | clientError
deriving DecidableEq, Repr

/-- app.py choose_blind_bidding. -/
def choose_blind_bidding (g : Game) : Game × RouteStatus :=
  if g.phase ≠ .blind_decision then (g, .clientError)
  else ({ g with phase := .blind_bidding }, .success)

/-- app.py choose_normal_bidding. -/
def choose_normal_bidding (g : Game) : Game × RouteStatus :=
  if g.phase ≠ .blind_decision then (g, .clientError)
  else ({ g with phase := .discard }, .success)

/-- app.py make_blind_bid.  The computer's answer comes from
computer_bidding_brain, which is randomized; its (bid, is_blind) result is
the brain argument.  The phase is checked before the bid bounds, and
comparing a missing or non-integer bid against 5 raises TypeError. -/
def make_blind_bid (g : Game) (bid : PyVal) (brain : Int × Bool) :
    Except PyErr (Game × RouteStatus) :=
  if g.phase ≠ .blind_bidding then .ok (g, .clientError)
  else
    match bid with
    | .pyInt b =>
        if b < 5 ∨ b > 10 then .ok (g, .clientError)
        else
          let g := { g with blind_bid := some b, player_bid := some b }
          let g := { g with computer_bid := some brain.1 }
          let g := if brain.2 then { g with computer_blind_bid := some brain.1 } else g
          .ok ({ g with phase := .discard }, .success)
    | _ => .error .typeError

/-- app.py make_bid (the /bid route).  Checks only the phase and the bid
bounds; the computer bids reactively if it has not already bid; then play
starts with the configured first leader, the computer leading immediately
when it is that leader. -/
def make_bid (g : Game) (bid : PyVal) (brain : Int × Bool) :
    Except PyErr (Game × RouteStatus) :=
  if g.phase ≠ .bidding then .ok (g, .clientError)
  else
    match bid with
    | .pyInt b =>
        if b < 0 ∨ b > 10 then .ok (g, .clientError)
        else
          let g := { g with player_bid := some b }
          let g :=
            if g.computer_bid = none then
              let g := { g with computer_bid := some brain.1 }
              if brain.2 then { g with computer_blind_bid := some brain.1 } else g
            else g
          let fl : Side := g.first_leader
          let g := { g with phase := .playing, turn := fl, trick_leader := some fl }
          if fl = .computer then
            .ok ({ computer_lead g with turn := .player }, .success)
          else .ok (g, .success)
    | _ => .error .typeError

/-- app.py discard_card (the /discard route).  The brain argument is the
randomized computer_bidding_brain result consulted on the
Martha-bids-first path. -/
def discard_card (g : Game) (index : PyVal) (brain : Int × Bool) :
    Except PyErr (Game × RouteStatus) :=
  if g.phase ≠ .discard then .ok (g, .clientError)
  else
    match index with
    | .pyInt ci =>
        if h : ci < 0 ∨ (g.player_hand.length : Int) ≤ ci then .ok (g, .clientError)
        else
          let player_card := g.player_hand.get ⟨ci.toNat, by omega⟩
          let g := { g with
            player_hand := g.player_hand.eraseIdx ci.toNat
            player_discarded := some player_card }
          -- computer discards via its strategy
          let di := (computer_discard_strategy g.computer_hand g.computer_parity).getD 0
          match g.computer_hand[di]? with
          | none => .error .typeError  -- unreachable: strategy indices are in range
          | some computer_card =>
            let g := { g with
              computer_hand := g.computer_hand.eraseIdx di
              computer_discarded := some computer_card }
            let discard_result := calculate_discard_score_with_winner
              g.player_discarded g.computer_discarded g.player_parity g.computer_parity
            let g := { g with pending_discard_result := some discard_result }
            let special_discard_result := check_special_cards_in_discard
              g.player_discarded g.computer_discarded discard_result.winner
            let g := { g with pending_special_discard_result := some special_discard_result }
            if g.player_bid ≠ none then
              -- bids were set on the blind path: go straight to playing
              let fl : Side := g.first_leader
              let g := { g with phase := .playing, turn := fl, trick_leader := some fl }
              if fl = .computer then
                .ok ({ computer_lead g with turn := .player }, .success)
              else .ok (g, .success)
            else
              let elig := check_blind_bidding_eligibility g.player_score g.computer_score
              if determine_martha_bids_first g then
                let g := { g with computer_bid := some brain.1 }
                let g := if brain.2 then { g with computer_blind_bid := some brain.1 } else g
                .ok ({ g with phase := .bidding, turn := .player }, .success)
              else if elig.player_eligible then
                .ok ({ g with phase := .blind_decision }, .success)
              else
                .ok ({ g with phase := .bidding, turn := .player }, .success)
    | _ => .error .typeError

/-- app.py play_card (the /play route).  Checks phase, turn, index bounds
and suit-following before any mutation; afterwards the card is played and,
depending on the resulting trick length, the computer follows and/or the
trick is resolved.  A trick that already holds two plays is not guarded
against: the new card is appended and both length tests fail. -/
def play_card (g : Game) (index : PyVal) : Except PyErr (Game × RouteStatus) :=
  if g.phase ≠ .playing then .ok (g, .clientError)
  else if g.turn ≠ .player then .ok (g, .clientError)
  else
    match index with
    | .pyInt ci =>
        if h : ci < 0 ∨ (g.player_hand.length : Int) ≤ ci then .ok (g, .clientError)
        else
          let card := g.player_hand.get ⟨ci.toNat, by omega⟩
          if ¬ is_valid_play card g.player_hand g.current_trick g.spades_broken then
            .ok (g, .clientError)
          else
            let g := { g with
              player_hand := g.player_hand.eraseIdx ci.toNat
              current_trick := g.current_trick ++ [{ player := .player, card := card }]
              spades_broken := g.spades_broken || decide (card.suit = Suit.spades) }
            if g.current_trick.length = 1 then
              let g := { g with trick_leader := some .player, turn := .computer }
              let g := computer_follow g
              .ok (resolve_trick_with_delay g, .success)
            else if g.current_trick.length = 2 then
              .ok (resolve_trick_with_delay g, .success)
            else
              .ok (g, .success)
    | _ => .error .typeError

/-- app.py clear_trick.  Clearing with no completed trick is a successful
no-op.  When the player hand has emptied, the pending discard bonuses and
special-card reductions are applied, the hand is settled through
calculate_hand_scores_with_bags, and check_game_over runs; otherwise the
trick winner leads the next trick. -/
def clear_trick (g : Game) : Game × RouteStatus :=
  if ¬ g.trick_completed then (g, .success)
  else
    let winner := g.trick_winner
    let g := { g with current_trick := [], trick_completed := false, trick_winner := none }
    if g.player_hand.length = 0 then
      let g := { g with hand_over := true }
      let g :=
        match g.pending_discard_result with
        | some dr =>
            let g := { g with
              player_score := g.player_score + dr.player_bonus
              computer_score := g.computer_score + dr.computer_bonus }
            let g :=
              match g.pending_special_discard_result with
              | some sdr =>
                  let g :=
                    if sdr.player_bag_reduction > 0 then
                      { g with player_bags :=
                          reduce_bags_safely g.player_bags sdr.player_bag_reduction }
                    else g
                  if sdr.computer_bag_reduction > 0 then
                    { g with computer_bags :=
                        reduce_bags_safely g.computer_bags sdr.computer_bag_reduction }
                  else g
              | none => g
            { g with pending_discard_result := none, pending_special_discard_result := none }
        | none => g
      let settle := calculate_hand_scores_with_bags
        { player_bid := (g.player_bid).getD 0
          computer_bid := (g.computer_bid).getD 0
          player_tricks := g.player_tricks
          computer_tricks := g.computer_tricks
          blind_bid := g.blind_bid
          computer_blind_bid := g.computer_blind_bid
          player_bags := g.player_bags
          computer_bags := g.computer_bags
          player_score := g.player_score
          computer_score := g.computer_score }
      let g := { g with
        player_score := settle.new_player_score
        computer_score := settle.new_computer_score
        player_bags := settle.new_player_bags
        computer_bags := settle.new_computer_bags
        player_trick_special_cards := 0
        computer_trick_special_cards := 0 }
      let g :=
        match check_game_over g.player_score g.computer_score g.player_bags
            g.computer_bags g.target_score with
        | some w => { g with game_over := true, winner := some w }
        | none => g
      (g, .success)
    else if winner = some .computer then
      ({ computer_lead g with turn := .player }, .success)
    else
      ({ g with turn := .player }, .success)

/-- app.py next_hand. -/
def next_hand (g : Game) (deck : List Card) : Game × RouteStatus :=
  if ¬ g.hand_over ∨ g.game_over then (g, .clientError)
  else
    let g := { g with hand_number := g.hand_number + 1 }
    (init_new_hand g deck, .success)

/-! ## C5: trick winner -/

/-- C5: for every completed 2-play trick, if both cards share a suit the
higher trick value wins; if the suits differ, the side that played a spade
wins; and if the suits differ and neither card is a spade, the leader (the
first play) wins, so an off-suit non-spade follow never wins. -/
theorem trick_winner_correct (p q : Play) :
    (p.card.suit = q.card.suit →
      (q.card.value < p.card.value → determine_trick_winner [p, q] = some p.player) ∧
      (p.card.value < q.card.value → determine_trick_winner [p, q] = some q.player)) ∧
    (p.card.suit ≠ q.card.suit →
      (p.card.suit = .spades → determine_trick_winner [p, q] = some p.player) ∧
      (q.card.suit = .spades → determine_trick_winner [p, q] = some q.player) ∧
      (p.card.suit ≠ .spades → q.card.suit ≠ .spades →
        determine_trick_winner [p, q] = some p.player)) := by
  have hred : determine_trick_winner [p, q] =
      (if p.card.suit = q.card.suit then
        (if p.card.value > q.card.value then some p.player else some q.player)
      else if p.card.suit = Suit.spades then some p.player
      else if q.card.suit = Suit.spades then some q.player
      else some p.player) := rfl
  constructor
  · intro hs
    constructor
    · intro hv
      have hv' : p.card.value > q.card.value := hv
      rw [hred, if_pos hs, if_pos hv']
    · intro hv
      have hnv : ¬ p.card.value > q.card.value := by omega
      rw [hred, if_pos hs, if_neg hnv]
  · intro hs
    refine ⟨?_, ?_, ?_⟩
    · intro hp
      rw [hred, if_neg hs, if_pos hp]
    · intro hq
      have hp : ¬ p.card.suit = Suit.spades := by
        intro hp; exact hs (hp.trans hq.symm)
      rw [hred, if_neg hs, if_neg hp, if_pos hq]
    · intro hp hq
      rw [hred, if_neg hs, if_neg hp, if_neg hq]

/-- Witness for C5 at the spec's own example: a ♥7 lead loses to a ♠2
follow (trump). -/
theorem trick_winner_correct_witness :
    determine_trick_winner
      [{ player := .player, card := { rank := .r7, suit := .hearts } },
       { player := .computer, card := { rank := .r2, suit := .spades } }] =
      some Side.computer :=
  ((trick_winner_correct
      { player := .player, card := { rank := .r7, suit := .hearts } }
      { player := .computer, card := { rank := .r2, suit := .spades } }).2
    (by decide)).2.1 (by decide)

/-! ## C6: follow-suit legality -/

/-- C6: a play is legal exactly when: leading a non-trump suit is always
legal; leading a spade is legal only if spades are broken or the hand is
entirely spades; when following, a card of the lead suit must be played if
the hand holds any, otherwise any card (including a spade) is legal. -/
theorem follow_suit_legality (card : Card) (hand : List Card) (trick : List Play)
    (spades_broken : Bool) :
    (trick = [] → card.suit ≠ .spades →
      is_valid_play card hand trick spades_broken = true) ∧
    (trick = [] → card.suit = .spades →
      (is_valid_play card hand trick spades_broken = true ↔
        spades_broken = true ∨ ∀ c ∈ hand, c.suit = Suit.spades)) ∧
    (∀ t0 rest, trick = t0 :: rest →
      ((∃ c ∈ hand, c.suit = t0.card.suit) →
        (is_valid_play card hand trick spades_broken = true ↔
          card.suit = t0.card.suit)) ∧
      ((∀ c ∈ hand, c.suit ≠ t0.card.suit) →
        is_valid_play card hand trick spades_broken = true)) := by
  refine ⟨?_, ?_, ?_⟩
  · rintro rfl hns
    simp [is_valid_play, hns]
  · rintro rfl hsp
    cases spades_broken with
    | true => simp [is_valid_play, hsp]
    | false => simp [is_valid_play, hsp, List.all_eq_true]
  · rintro t0 rest rfl
    constructor
    · intro hholds
      have hany : hand.any (fun c => decide (c.suit = t0.card.suit)) = true := by
        simpa [List.any_eq_true] using hholds
      simp [is_valid_play, hany]
    · intro hnone
      have hany : hand.any (fun c => decide (c.suit = t0.card.suit)) = false := by
        simp [List.any_eq_false]
        exact hnone
      simp [is_valid_play, hany]

/-- Witness for C6 at the spec's example: holding no card of the lead suit
makes a trump play legal. -/
theorem follow_suit_legality_witness :
    is_valid_play { rank := .r2, suit := .spades }
      [{ rank := .r2, suit := .spades }, { rank := .r4, suit := .diamonds }]
      [{ player := .computer, card := { rank := .r7, suit := .hearts } }]
      false = true :=
  ((follow_suit_legality { rank := .r2, suit := .spades }
      [{ rank := .r2, suit := .spades }, { rank := .r4, suit := .diamonds }]
      [{ player := .computer, card := { rank := .r7, suit := .hearts } }]
      false).2.2
    { player := .computer, card := { rank := .r7, suit := .hearts } } [] rfl).2
    (by decide)

/-! ## C7: discard scoring -/

/-- C7: under the complementary even/odd parity assignment, discard scoring
sums the two discard values; exactly the side whose assigned parity matches
the parity of that sum wins a bonus of 10, or 20 when the two cards share a
suit or a rank, and the other side gets 0. -/
theorem discard_scoring_correct (pd cd : Card) (pp cp : Parity) (hpc : pp ≠ cp) :
    (calculate_discard_score_with_winner (some pd) (some cd) pp cp).total =
      get_discard_value pd.rank + get_discard_value cd.rank ∧
    ((calculate_discard_score_with_winner (some pd) (some cd) pp cp).is_double = true ↔
      (pd.suit = cd.suit ∨ pd.rank = cd.rank)) ∧
    (((get_discard_value pd.rank + get_discard_value cd.rank) % 2 = 0 ∧ pp = .even) ∨
        ((get_discard_value pd.rank + get_discard_value cd.rank) % 2 ≠ 0 ∧ pp = .odd) →
      (calculate_discard_score_with_winner (some pd) (some cd) pp cp).player_bonus =
          (if pd.suit = cd.suit ∨ pd.rank = cd.rank then 20 else 10) ∧
        (calculate_discard_score_with_winner (some pd) (some cd) pp cp).computer_bonus = 0 ∧
        (calculate_discard_score_with_winner (some pd) (some cd) pp cp).winner =
          some Side.player) ∧
    (((get_discard_value pd.rank + get_discard_value cd.rank) % 2 = 0 ∧ cp = .even) ∨
        ((get_discard_value pd.rank + get_discard_value cd.rank) % 2 ≠ 0 ∧ cp = .odd) →
      (calculate_discard_score_with_winner (some pd) (some cd) pp cp).computer_bonus =
          (if pd.suit = cd.suit ∨ pd.rank = cd.rank then 20 else 10) ∧
        (calculate_discard_score_with_winner (some pd) (some cd) pp cp).player_bonus = 0 ∧
        (calculate_discard_score_with_winner (some pd) (some cd) pp cp).winner =
          some Side.computer) := by
  by_cases he : (get_discard_value pd.rank + get_discard_value cd.rank) % 2 = 0 <;>
    cases pp <;> cases cp <;> simp at hpc <;>
    by_cases hd : pd.suit = cd.suit ∨ pd.rank = cd.rank <;>
    simp [calculate_discard_score_with_winner, he, hd]

/-- Witness for C7 at the spec's example: ♣5 + ♦7 sums to 12 (even, not a
double), so the even side (here the player) gets exactly 10 and the odd
side 0. -/
theorem discard_scoring_correct_witness :
    (Parity.even ≠ Parity.odd) ∧
    (calculate_discard_score_with_winner
        (some { rank := .r5, suit := .clubs }) (some { rank := .r7, suit := .diamonds })
        .even .odd).player_bonus = 10 ∧
    (calculate_discard_score_with_winner
        (some { rank := .r5, suit := .clubs }) (some { rank := .r7, suit := .diamonds })
        .even .odd).computer_bonus = 0 := by
  have h := discard_scoring_correct
    { rank := .r5, suit := .clubs } { rank := .r7, suit := .diamonds }
    .even .odd (by decide)
  have h3 := h.2.2.1 (Or.inl (by decide))
  exact ⟨by decide, by rw [h3.1]; decide, h3.2.1⟩

/-! ## C1: end-of-hand settlement with bags -/

theorem bagsPenaltyLoop_lt (s b : Int) (p : Bool) (h : b < 7) :
    bagsPenaltyLoop s b p = (s, b, p) := by
  rw [bagsPenaltyLoop]
  rw [dif_neg (by omega)]

theorem bagsPenaltyLoop_closed_aux (n : Nat) : ∀ (s b : Int) (p : Bool),
    b.toNat ≤ n → 7 ≤ b →
    bagsPenaltyLoop s b p = (s - 100 * (b / 7), b % 7, true) := by
  induction n with
  | zero => intro s b p hn h7; omega
  | succ m ih =>
      intro s b p hn h7
      rw [bagsPenaltyLoop, dif_pos h7]
      by_cases h7' : 7 ≤ b - 7
      · rw [ih (s - 100) (b - 7) true (by omega) h7']
        refine Prod.ext ?_ (Prod.ext ?_ rfl) <;> simp <;> omega
      · rw [bagsPenaltyLoop_lt _ _ _ (by omega)]
        refine Prod.ext ?_ (Prod.ext ?_ rfl) <;> simp <;> omega

theorem bagsPenaltyLoop_ge (s b : Int) (p : Bool) (h : 7 ≤ b) :
    bagsPenaltyLoop s b p = (s - 100 * (b / 7), b % 7, true) :=
  bagsPenaltyLoop_closed_aux b.toNat s b p le_rfl h

theorem bagsBonusLoop_gt (s b : Int) (p : Bool) (h : -5 < b) :
    bagsBonusLoop s b p = (s, b, p) := by
  rw [bagsBonusLoop]
  rw [dif_neg (by omega)]

theorem bagsBonusLoop_closed_aux (n : Nat) : ∀ (s b : Int) (p : Bool),
    (-b).toNat ≤ n → b ≤ -5 →
    bagsBonusLoop s b p =
      (s + 100 * ((-b - 5) / 5 + 1), b + 5 * ((-b - 5) / 5 + 1), true) := by
  induction n with
  | zero => intro s b p hn h5; omega
  | succ m ih =>
      intro s b p hn h5
      rw [bagsBonusLoop, dif_pos h5]
      by_cases h5' : b + 5 ≤ -5
      · rw [ih (s + 100) (b + 5) true (by omega) h5']
        refine Prod.ext ?_ (Prod.ext ?_ rfl) <;> simp <;> omega
      · rw [bagsBonusLoop_gt _ _ _ (by omega)]
        refine Prod.ext ?_ (Prod.ext ?_ rfl) <;> simp <;> omega

/-- Closed form of custom_rules.apply_bags_penalty: while bags >= 7 each
full 7 bags becomes a -100 penalty; then while bags <= -5 each -5 becomes
a +100 bonus; between -5 (exclusive) and 7 (exclusive) nothing happens. -/
theorem apply_bags_penalty_spec (s b : Int) :
    (7 ≤ b → apply_bags_penalty s b = (s - 100 * (b / 7), b % 7, true, false)) ∧
    (b ≤ -5 → apply_bags_penalty s b =
      (s + 100 * ((-b - 5) / 5 + 1), b + 5 * ((-b - 5) / 5 + 1), false, true)) ∧
    (-5 < b → b < 7 → apply_bags_penalty s b = (s, b, false, false)) := by
  refine ⟨?_, ?_, ?_⟩
  · intro h7
    unfold apply_bags_penalty
    rw [bagsPenaltyLoop_ge s b false h7]
    dsimp only
    rw [bagsBonusLoop_gt _ _ _ (by omega : (-5 : Int) < b % 7)]
  · intro h5
    unfold apply_bags_penalty
    rw [bagsPenaltyLoop_lt s b false (by omega)]
    dsimp only
    rw [bagsBonusLoop_closed_aux (-b).toNat s b false le_rfl h5]
  · intro h5 h7
    unfold apply_bags_penalty
    rw [bagsPenaltyLoop_lt s b false h7]
    dsimp only
    rw [bagsBonusLoop_gt s b false h5]

/-- C1: end-of-hand settlement for each side independently: a bid of 0
with 0 tricks scores +100 with no bags; a bid of 0 with t > 0 tricks
scores -100 and adds t bags; a bid b >= 1 made scores +10b (doubled when
flagged blind) and adds the overage as bags; a bid b >= 1 missed scores
-10b (doubled when blind) with no bags; the hand points and bag overage
are added to the cumulative score and bags via apply_bags_penalty, whose
rollover semantics (repeat while >= 7: -100 and -7 bags; repeat while
<= -5: +100 and +5 bags) is pinned down in closed form by the final three
conjuncts. -/
theorem hand_settlement_correct (g : SettleInput) :
    (g.player_bid = 0 →
      (g.player_tricks = 0 →
        (calculate_hand_scores_with_bags g).player_hand_points = 100 ∧
        (calculate_hand_scores_with_bags g).player_bags_added = 0) ∧
      (g.player_tricks ≠ 0 →
        (calculate_hand_scores_with_bags g).player_hand_points = -100 ∧
        (calculate_hand_scores_with_bags g).player_bags_added = g.player_tricks)) ∧
    (1 ≤ g.player_bid →
      (g.player_bid ≤ g.player_tricks →
        (calculate_hand_scores_with_bags g).player_hand_points =
          (if g.blind_bid = some g.player_bid then 2 else 1) * (g.player_bid * 10) ∧
        (calculate_hand_scores_with_bags g).player_bags_added =
          g.player_tricks - g.player_bid) ∧
      (g.player_tricks < g.player_bid →
        (calculate_hand_scores_with_bags g).player_hand_points =
          -((if g.blind_bid = some g.player_bid then 2 else 1) * (g.player_bid * 10)) ∧
        (calculate_hand_scores_with_bags g).player_bags_added = 0)) ∧
    (g.computer_bid = 0 →
      (g.computer_tricks = 0 →
        (calculate_hand_scores_with_bags g).computer_hand_points = 100 ∧
        (calculate_hand_scores_with_bags g).computer_bags_added = 0) ∧
      (g.computer_tricks ≠ 0 →
        (calculate_hand_scores_with_bags g).computer_hand_points = -100 ∧
        (calculate_hand_scores_with_bags g).computer_bags_added = g.computer_tricks)) ∧
    (1 ≤ g.computer_bid →
      (g.computer_bid ≤ g.computer_tricks →
        (calculate_hand_scores_with_bags g).computer_hand_points =
          (if g.computer_blind_bid = some g.computer_bid then 2 else 1) *
            (g.computer_bid * 10) ∧
        (calculate_hand_scores_with_bags g).computer_bags_added =
          g.computer_tricks - g.computer_bid) ∧
      (g.computer_tricks < g.computer_bid →
        (calculate_hand_scores_with_bags g).computer_hand_points =
          -((if g.computer_blind_bid = some g.computer_bid then 2 else 1) *
            (g.computer_bid * 10)) ∧
        (calculate_hand_scores_with_bags g).computer_bags_added = 0)) ∧
    (apply_bags_penalty
        (g.player_score + (calculate_hand_scores_with_bags g).player_hand_points)
        (g.player_bags + (calculate_hand_scores_with_bags g).player_bags_added) =
      ((calculate_hand_scores_with_bags g).new_player_score,
       (calculate_hand_scores_with_bags g).new_player_bags,
       (calculate_hand_scores_with_bags g).player_penalty,
       (calculate_hand_scores_with_bags g).player_bonus)) ∧
    (apply_bags_penalty
        (g.computer_score + (calculate_hand_scores_with_bags g).computer_hand_points)
        (g.computer_bags + (calculate_hand_scores_with_bags g).computer_bags_added) =
      ((calculate_hand_scores_with_bags g).new_computer_score,
       (calculate_hand_scores_with_bags g).new_computer_bags,
       (calculate_hand_scores_with_bags g).computer_penalty,
       (calculate_hand_scores_with_bags g).computer_bonus)) ∧
    (∀ s b : Int, 7 ≤ b →
      apply_bags_penalty s b = (s - 100 * (b / 7), b % 7, true, false)) ∧
    (∀ s b : Int, b ≤ -5 →
      apply_bags_penalty s b =
        (s + 100 * ((-b - 5) / 5 + 1), b + 5 * ((-b - 5) / 5 + 1), false, true)) ∧
    (∀ s b : Int, -5 < b → b < 7 → apply_bags_penalty s b = (s, b, false, false)) := by
  refine ⟨?_, ?_, ?_, ?_, rfl, rfl,
    fun s b h => (apply_bags_penalty_spec s b).1 h,
    fun s b h => (apply_bags_penalty_spec s b).2.1 h,
    fun s b h1 h2 => (apply_bags_penalty_spec s b).2.2 h1 h2⟩
  · intro h0
    constructor
    · intro ht
      simp [calculate_hand_scores_with_bags, h0, ht]
    · intro ht
      simp [calculate_hand_scores_with_bags, h0, ht]
  · intro h1
    have h0 : ¬ g.player_bid = 0 := by omega
    constructor
    · intro hge
      have hge' : g.player_tricks ≥ g.player_bid := hge
      by_cases hb : g.blind_bid = some g.player_bid <;>
        simp [calculate_hand_scores_with_bags, h0, hge', apply_blind_scoring, hb] <;> ring
    · intro hlt
      have hge' : ¬ g.player_tricks ≥ g.player_bid := by omega
      by_cases hb : g.blind_bid = some g.player_bid <;>
        simp [calculate_hand_scores_with_bags, h0, hge', apply_blind_scoring, hb] <;> ring
  · intro h0
    constructor
    · intro ht
      simp [calculate_hand_scores_with_bags, h0, ht]
    · intro ht
      simp [calculate_hand_scores_with_bags, h0, ht]
  · intro h1
    have h0 : ¬ g.computer_bid = 0 := by omega
    constructor
    · intro hge
      have hge' : g.computer_tricks ≥ g.computer_bid := hge
      by_cases hb : g.computer_blind_bid = some g.computer_bid <;>
        simp [calculate_hand_scores_with_bags, h0, hge', apply_blind_scoring, hb] <;> ring
    · intro hlt
      have hge' : ¬ g.computer_tricks ≥ g.computer_bid := by omega
      by_cases hb : g.computer_blind_bid = some g.computer_bid <;>
        simp [calculate_hand_scores_with_bags, h0, hge', apply_blind_scoring, hb] <;> ring

/-- Concrete settlement input for the C1 witness: the spec's bag-rollover
example (5 bags entering, bid 4, 6 tricks taken). -/
def settleDemo : SettleInput :=
  { player_bid := 4, computer_bid := 3, player_tricks := 6, computer_tricks := 4
    blind_bid := none, computer_blind_bid := none, player_bags := 5
    computer_bags := 0, player_score := 0, computer_score := 0 }

/-- Witness for C1 at the spec's bag-rollover example: a side entering the
settlement with 5 bags that bids 4 and takes 6 tricks gains 40 points and
2 bags, hits 7 bags, and loses exactly 100 points returning to 0 bags. -/
theorem hand_settlement_correct_witness :
    (calculate_hand_scores_with_bags settleDemo).player_hand_points = 40 ∧
    (calculate_hand_scores_with_bags settleDemo).player_bags_added = 2 ∧
    ((calculate_hand_scores_with_bags settleDemo).new_player_score,
     (calculate_hand_scores_with_bags settleDemo).new_player_bags,
     (calculate_hand_scores_with_bags settleDemo).player_penalty,
     (calculate_hand_scores_with_bags settleDemo).player_bonus) =
      (-60, 0, true, false) := by
  have h := hand_settlement_correct settleDemo
  have hB := (h.2.1 (by decide)).1 (by decide)
  have hpts : (calculate_hand_scores_with_bags settleDemo).player_hand_points = 40 := by
    rw [hB.1]; decide
  have hadd : (calculate_hand_scores_with_bags settleDemo).player_bags_added = 2 := by
    rw [hB.2]; decide
  refine ⟨hpts, hadd, ?_⟩
  have hE := h.2.2.2.2.1
  rw [hpts, hadd] at hE
  rw [show settleDemo.player_score + (40 : Int) = 40 from by decide] at hE
  rw [show settleDemo.player_bags + (2 : Int) = 7 from by decide] at hE
  have hR := h.2.2.2.2.2.2.1 40 7 (by decide)
  rw [hR] at hE
  rw [← hE]
  decide

/-! ## C2: game-end determination -/

set_option maxHeartbeats 1600000 in
/-- C2: game end is decided on display scores: a lead of at least 300
display points ends the game at once for the leader (mercy rule);
otherwise reaching the target ends the game with the higher display score
winning, a display tie broken first by higher base score, then by bags
(negative bags lose to non-negative bags, otherwise fewer bags win), and a
tie declared when all of these are equal. -/
theorem game_end_correct (ps cs pb cb target : Int) :
    (get_display_score ps pb - get_display_score cs cb ≥ 300 →
      check_game_over ps cs pb cb target = some .player) ∧
    (get_display_score ps pb - get_display_score cs cb < 300 →
      get_display_score cs cb - get_display_score ps pb ≥ 300 →
      check_game_over ps cs pb cb target = some .computer) ∧
    (get_display_score ps pb - get_display_score cs cb < 300 →
      get_display_score cs cb - get_display_score ps pb < 300 →
      (get_display_score ps pb < target → get_display_score cs cb < target →
        check_game_over ps cs pb cb target = none) ∧
      ((get_display_score ps pb ≥ target ∨ get_display_score cs cb ≥ target) →
        (get_display_score cs cb < get_display_score ps pb →
          check_game_over ps cs pb cb target = some .player) ∧
        (get_display_score ps pb < get_display_score cs cb →
          check_game_over ps cs pb cb target = some .computer) ∧
        (get_display_score ps pb = get_display_score cs cb →
          (cs < ps → check_game_over ps cs pb cb target = some .player) ∧
          (ps < cs → check_game_over ps cs pb cb target = some .computer) ∧
          (ps = cs →
            (pb < 0 → 0 ≤ cb → check_game_over ps cs pb cb target = some .computer) ∧
            (cb < 0 → 0 ≤ pb → check_game_over ps cs pb cb target = some .player) ∧
            (¬(pb < 0 ∧ 0 ≤ cb) → ¬(cb < 0 ∧ 0 ≤ pb) →
              (pb < cb → check_game_over ps cs pb cb target = some .player) ∧
              (cb < pb → check_game_over ps cs pb cb target = some .computer) ∧
              (pb = cb → check_game_over ps cs pb cb target = some .tie)))))) := by
  have hred : check_game_over ps cs pb cb target =
      (if get_display_score ps pb - get_display_score cs cb ≥ 300 then some Winner.player
      else if get_display_score cs cb - get_display_score ps pb ≥ 300 then some .computer
      else if get_display_score ps pb ≥ target ∨ get_display_score cs cb ≥ target then
        if get_display_score ps pb > get_display_score cs cb then some .player
        else if get_display_score cs cb > get_display_score ps pb then some .computer
        else if ps > cs then some .player
        else if cs > ps then some .computer
        else if pb < 0 ∧ cb ≥ 0 then some .computer
        else if cb < 0 ∧ pb ≥ 0 then some .player
        else if pb < cb then some .player
        else if cb < pb then some .computer
        else some .tie
      else none) := rfl
  rw [hred]
  generalize get_display_score ps pb = pd
  generalize get_display_score cs cb = cd
  split_ifs <;> (repeat' first | apply And.intro | intro h) <;>
    first | rfl | (exfalso; omega)

/-- Witness for C2: a 400-to-0 display lead ends the game at once for the
player by the mercy rule. -/
theorem game_end_correct_witness :
    get_display_score 400 0 - get_display_score 0 0 ≥ 300 ∧
    check_game_over 400 0 0 0 300 = some .player :=
  ⟨by decide, (game_end_correct 400 0 0 0 300).1 (by decide)⟩

/-! ## A concrete dealt game used by the route-level claims

The deck below gives the player ten hearts plus the ace of spades and the
computer eleven diamonds (only the first 22 cards of a deck are dealt).
The parity assignment even/odd with the computer leading first is exactly
what assign_even_odd_at_game_start produces on its 'even' coin flip. -/

def demoDeckA : List Card :=
  [{ rank := .r2, suit := .hearts }, { rank := .r3, suit := .hearts },
   { rank := .r4, suit := .hearts }, { rank := .r5, suit := .hearts },
   { rank := .r6, suit := .hearts }, { rank := .r7, suit := .hearts },
   { rank := .r8, suit := .hearts }, { rank := .r9, suit := .hearts },
   { rank := .r10, suit := .hearts }, { rank := .J, suit := .hearts },
   { rank := .A, suit := .spades },
   { rank := .r2, suit := .diamonds }, { rank := .r3, suit := .diamonds },
   { rank := .r4, suit := .diamonds }, { rank := .r5, suit := .diamonds },
   { rank := .r6, suit := .diamonds }, { rank := .r7, suit := .diamonds },
   { rank := .r8, suit := .diamonds }, { rank := .r9, suit := .diamonds },
   { rank := .r10, suit := .diamonds }, { rank := .J, suit := .diamonds },
   { rank := .Q, suit := .diamonds }]

def demoG0 : Game := init_game demoDeckA .even .odd .computer

/-! ## C4: blind-bidding eligibility is computed on base scores, not
display scores (the claim as written fails on the code) -/

/-- A state like demoG0 but mid-game: base scores 5 and 100.  The display
scores are then 0 and 100 (display folds bags into the ones digit and here
drops the base's ones digit), a display deficit of exactly 100. -/
def c4_gcx : Game := { demoG0 with player_score := 5, computer_score := 100 }

/-- A state whose base deficit is at least 100. -/
def c4_gcx2 : Game := { demoG0 with computer_score := 105 }

/-- Counterexample to C4: with base scores 5 vs 100 the display deficit is
exactly 100, so per the claim the player would be eligible for blind
bidding; but check_blind_bidding_eligibility (called on base scores both
at discard resolution and at new-hand setup) reports ineligible, the
discard route proceeds to the bidding phase instead of blind_decision, and
init_new_hand deals into the discard phase with blind bidding
unavailable. -/
theorem blind_eligibility_display_counterexample :
    get_display_score c4_gcx.computer_score c4_gcx.computer_bags -
      get_display_score c4_gcx.player_score c4_gcx.player_bags = 100 ∧
    (check_blind_bidding_eligibility c4_gcx.player_score
      c4_gcx.computer_score).player_eligible = false ∧
    ((discard_card c4_gcx (.pyInt 0) (3, false)).map (fun p => p.1.phase)) =
      .ok Phase.bidding ∧
    (init_new_hand c4_gcx demoDeckA).phase = Phase.discard ∧
    (init_new_hand c4_gcx demoDeckA).blind_bidding_available = false := by
  decide

/-- C4 as amended: everywhere eligibility is determined (the eligibility
function itself and init_new_hand), a side is eligible exactly when it
trails by at least 100 points of raw base score; and on the discard route
a base deficit of at least 100 (not a display deficit) sends the player to
the blind_decision phase, shown at a concrete state. -/
theorem blind_eligibility_base_score (ps cs : Int) (g : Game) (deck : List Card) :
    (check_blind_bidding_eligibility ps cs).player_eligible =
      decide (cs - ps ≥ 100) ∧
    (check_blind_bidding_eligibility ps cs).computer_eligible =
      decide (ps - cs ≥ 100) ∧
    (init_new_hand g deck).phase =
      (if g.computer_score - g.player_score ≥ 100 then Phase.blind_decision
       else Phase.discard) ∧
    (init_new_hand g deck).blind_bidding_available =
      decide (g.computer_score - g.player_score ≥ 100) ∧
    ((discard_card c4_gcx2 (.pyInt 0) (3, false)).map (fun p => p.1.phase)) =
      .ok Phase.blind_decision := by
  refine ⟨rfl, rfl, ?_, ?_, by decide⟩ <;>
    by_cases h : g.computer_score - g.player_score ≥ 100 <;>
    simp [init_new_hand, check_blind_bidding_eligibility, h]

/-! ## C3: there is no blind-nil option (the claim as written fails on the
code) -/

/-- The demo game placed in the blind_decision phase. -/
def c3_gbd : Game := { demoG0 with phase := .blind_decision }

/-- The demo game placed in the blind_bidding phase (as
choose_blind_bidding produces from c3_gbd). -/
def c3_gbb : Game := { demoG0 with phase := .blind_bidding }

/-- A settlement input carrying a blind-nil flag (blind_bid = 0) with the
nil kept (0 tricks). -/
def c3_settle : SettleInput :=
  { player_bid := 0, computer_bid := 5, player_tricks := 0, computer_tricks := 10
    blind_bid := some 0, computer_blind_bid := none, player_bags := 0
    computer_bags := 0, player_score := 0, computer_score := 250 }

/-- Counterexample to C3: from blind_decision the player can only enter
blind_bidding, where a bid of 0 is rejected with no state change (blind
bids must be 5-10), so no blind-nil flag can ever be set; and even with a
blind_bid of 0 forced into the settlement input, a kept nil scores the
normal +100 of a nil rather than instantly winning: the game-over check at
the resulting scores reports the game not over. -/
theorem blind_nil_counterexample :
    choose_blind_bidding c3_gbd = (c3_gbb, .success) ∧
    make_blind_bid c3_gbb (.pyInt 0) (3, false) = .ok (c3_gbb, .clientError) ∧
    (calculate_hand_scores_with_bags c3_settle).player_hand_points = 100 ∧
    check_game_over 100 250 0 0 300 = none := by
  refine ⟨by decide, by decide, ?_, by decide⟩
  simp [calculate_hand_scores_with_bags, c3_settle]

/-- C3 as amended: from blind_decision the player can choose blind
bidding, but blind bids are restricted to 5-10: a bid outside that range
(in particular 0, a would-be blind nil) is rejected without mutation;
an accepted blind bid sets the flag and both bids and returns to the
discard phase; and settlement treats any bid of 0 as an ordinary nil
worth plus or minus 100 (bags on failure) with no game-ending stake, whether or
not a blind flag is present. -/
theorem blind_bid_range_correct (g : Game) (b : Int) (brain : Int × Bool)
    (hph : g.phase = .blind_bidding) :
    (b < 5 ∨ b > 10 → make_blind_bid g (.pyInt b) brain = .ok (g, .clientError)) ∧
    (5 ≤ b → b ≤ 10 →
      make_blind_bid g (.pyInt b) brain =
        .ok (if brain.2 then
              { g with blind_bid := some b, player_bid := some b
                       computer_bid := some brain.1
                       computer_blind_bid := some brain.1, phase := .discard }
             else
              { g with blind_bid := some b, player_bid := some b
                       computer_bid := some brain.1, phase := .discard },
             .success)) ∧
    (∀ si : SettleInput, si.player_bid = 0 →
      (si.player_tricks = 0 →
        (calculate_hand_scores_with_bags si).player_hand_points = 100 ∧
        (calculate_hand_scores_with_bags si).player_bags_added = 0) ∧
      (si.player_tricks ≠ 0 →
        (calculate_hand_scores_with_bags si).player_hand_points = -100 ∧
        (calculate_hand_scores_with_bags si).player_bags_added = si.player_tricks)) := by
  refine ⟨?_, ?_, ?_⟩
  · intro hb
    simp [make_blind_bid, hph, hb]
  · intro h5 h10
    have hb : ¬ (b < 5 ∨ b > 10) := by omega
    cases hbr : brain.2 <;>
      simp [make_blind_bid, hph, hb, hbr]
  · intro si h0
    constructor
    · intro ht
      simp [calculate_hand_scores_with_bags, h0, ht]
    · intro ht
      simp [calculate_hand_scores_with_bags, h0, ht]

/-- Witness for the amended C3: an in-range blind bid of 7 is accepted and
sets the blind flag, both bids, and the discard phase. -/
theorem blind_bid_range_correct_witness :
    make_blind_bid c3_gbb (.pyInt 7) (3, false) =
      .ok ({ c3_gbb with blind_bid := some 7, player_bid := some 7
                         computer_bid := some 3, phase := .discard },
           .success) := by
  have h := (blind_bid_range_correct c3_gbb 7 (3, false) (by decide)).2.1
    (by decide) (by decide)
  exact h.trans (by decide)

/-! ## C8: rejected plays leave the state unchanged -/

/-- C8: invoking the play-card action outside the playing phase, out of
turn, with an out-of-range index, or with an illegal suit-follow reports
failure (the 400 rejection) and returns the game state unchanged, so a
corrected retry is safe. -/
theorem play_rejection_unchanged (g : Game) (i : Int) :
    (g.phase ≠ .playing → ∀ v : PyVal, play_card g v = .ok (g, .clientError)) ∧
    (g.phase = .playing → g.turn ≠ .player →
      ∀ v : PyVal, play_card g v = .ok (g, .clientError)) ∧
    (g.phase = .playing → g.turn = .player →
      (i < 0 ∨ (g.player_hand.length : Int) ≤ i) →
      play_card g (.pyInt i) = .ok (g, .clientError)) ∧
    (g.phase = .playing → g.turn = .player → ∀ hge : 0 ≤ i,
      ∀ hlt : i < (g.player_hand.length : Int),
      is_valid_play (g.player_hand.get ⟨i.toNat, by omega⟩) g.player_hand
        g.current_trick g.spades_broken = false →
      play_card g (.pyInt i) = .ok (g, .clientError)) := by
  refine ⟨?_, ?_, ?_, ?_⟩
  · intro hph v
    unfold play_card
    rw [if_pos hph]
  · intro hph ht v
    unfold play_card
    rw [if_neg (fun h => h hph), if_pos ht]
  · intro hph ht hrange
    unfold play_card
    rw [if_neg (fun h => h hph), if_neg (fun h => h ht)]
    dsimp only
    rw [dif_pos hrange]
  · intro hph ht hge hlt hinv
    unfold play_card
    rw [if_neg (fun h => h hph), if_neg (fun h => h ht)]
    dsimp only
    rw [dif_neg (by omega : ¬ (i < 0 ∨ (g.player_hand.length : Int) ≤ i))]
    rw [if_pos (by simp only [Bool.not_eq_true]; exact hinv)]

/-- A playing-phase state with a heart led by the computer, where the
player still holds hearts. -/
def c8_gplay : Game :=
  { demoG0 with phase := .playing, turn := .player
                current_trick := [{ player := .computer
                                    card := { rank := .r5, suit := .hearts } }] }

/-- Witness for C8: playing during the discard phase is rejected without
mutation, and so is an off-suit play while holding the led suit. -/
theorem play_rejection_unchanged_witness :
    play_card demoG0 (.pyInt 0) = .ok (demoG0, .clientError) ∧
    play_card c8_gplay (.pyInt 10) = .ok (c8_gplay, .clientError) := by
  constructor
  · exact (play_rejection_unchanged demoG0 0).1 (by decide) (.pyInt 0)
  · exact (play_rejection_unchanged c8_gplay 10).2.2.2 (by decide) (by decide)
      (by decide) (by decide) (by decide)

/-! ## C9: malformed request values crash instead of being rejected -/

/-- C9 is wrong on the code: each mutating route reads its JSON value with
data.get, then compares it against int bounds before validating it, so a
missing (None) or non-integer bid or index raises an uncaught TypeError in
Python 3 (Flask turns it into a 500) instead of producing the rejection
response.  The theorem evaluates the embedded routes at those failing
inputs; the result is the modelled TypeError, not a clientError
rejection. -/
theorem malformed_input_typeerror :
    (∀ brain : Int × Bool,
      make_bid { demoG0 with phase := .bidding } .pyNone brain = .error .typeError) ∧
    (∀ brain : Int × Bool,
      make_bid { demoG0 with phase := .bidding } (.pyStr ("4")) brain =
        .error .typeError) ∧
    (∀ brain : Int × Bool, discard_card demoG0 .pyNone brain = .error .typeError) ∧
    (∀ brain : Int × Bool,
      make_blind_bid { demoG0 with phase := .blind_bidding } .pyNone brain =
        .error .typeError) ∧
    play_card { demoG0 with phase := .playing, turn := .player } .pyNone =
      .error .typeError :=
  ⟨fun _ => rfl, fun _ => rfl, fun _ => rfl, fun _ => rfl, rfl⟩

/-! ## C10: the hand-size invariant is violated on a reachable trace

play_card never checks trick_completed, and after the player follows a
computer lead the turn stays with the player while the completed trick
awaits the explicit clear.  A second play is therefore accepted into the
dead trick (both trick-length tests fail) and clear_trick then throws the
extra card away, leaving the player one card short of the computer with an
empty trick.  The theorem below runs that exact request sequence from the
freshly dealt demo game, for every possible outcome of the randomized
computer bidding brain: discard index 0, bid 4 (the computer leads the 3
of diamonds), follow with the ace of spades at index 9 (winning the
trick), play index 0 again before clearing, then clear.  The intermediate
states are spelled out as literals so that each step is checked by
definitional evaluation. -/

def playerHeartsFrom3 : List Card :=
  [{ rank := .r3, suit := .hearts }, { rank := .r4, suit := .hearts },
   { rank := .r5, suit := .hearts }, { rank := .r6, suit := .hearts },
   { rank := .r7, suit := .hearts }, { rank := .r8, suit := .hearts },
   { rank := .r9, suit := .hearts }, { rank := .r10, suit := .hearts },
   { rank := .J, suit := .hearts }]

def computerDiamondsFrom4 : List Card :=
  [{ rank := .r4, suit := .diamonds }, { rank := .r5, suit := .diamonds },
   { rank := .r6, suit := .diamonds }, { rank := .r7, suit := .diamonds },
   { rank := .r8, suit := .diamonds }, { rank := .r9, suit := .diamonds },
   { rank := .r10, suit := .diamonds }, { rank := .J, suit := .diamonds },
   { rank := .Q, suit := .diamonds }]

/-- The demo game right after the discard exchange (player discarded the 2
of hearts, the computer strategy discarded the 2 of diamonds, the discard
bonus is pending, Tom bids first). -/
def c10_g1 : Game :=
  { demoG0 with
    player_hand := playerHeartsFrom3 ++ [{ rank := .A, suit := .spades }]
    computer_hand := { rank := .r3, suit := .diamonds } :: computerDiamondsFrom4
    phase := .bidding
    player_discarded := some { rank := .r2, suit := .hearts }
    computer_discarded := some { rank := .r2, suit := .diamonds }
    pending_discard_result := some
      { player_bonus := 20, computer_bonus := 0, total := 4, is_double := true
        winner := some .player }
    pending_special_discard_result := some
      { player_bag_reduction := 0, computer_bag_reduction := 0 } }

/-- After the player bids 4 and the computer (whose randomized bid came
out as bv) leads the 3 of diamonds. -/
def c10_g2 (bv : Int) : Game :=
  { c10_g1 with
    computer_hand := computerDiamondsFrom4
    current_trick := [{ player := .computer
                        card := { rank := .r3, suit := .diamonds } }]
    phase := .playing
    turn := .player
    trick_leader := some .computer
    player_bid := some 4
    computer_bid := some bv }

/-- After the player follows with the ace of spades: the trick is complete
and resolved (the player won and was awarded the trick), but the turn is
still the player's. -/
def c10_g3 (bv : Int) : Game :=
  { c10_g2 bv with
    player_hand := playerHeartsFrom3
    current_trick := [{ player := .computer
                        card := { rank := .r3, suit := .diamonds } },
                      { player := .player
                        card := { rank := .A, suit := .spades } }]
    player_tricks := 1
    spades_broken := true
    trick_completed := true
    trick_winner := some .player
    trick_history := [{ number := 1
                        player_card := some { rank := .A, suit := .spades }
                        computer_card := some { rank := .r3, suit := .diamonds }
                        winner := some .player }] }

/-- After the second, illegitimate play into the already-completed trick:
the 3 of hearts was removed from the player hand and appended as a third
play. -/
def c10_g4 (bv : Int) : Game :=
  { c10_g3 bv with
    player_hand := playerHeartsFrom3.tail
    current_trick := [{ player := .computer
                        card := { rank := .r3, suit := .diamonds } },
                      { player := .player
                        card := { rank := .A, suit := .spades } },
                      { player := .player
                        card := { rank := .r3, suit := .hearts } }] }

/-- After clearing: the trick (third card included) is discarded and the
player, who won, is to lead -- with 8 cards against the computer's 9. -/
def c10_g5 (bv : Int) : Game :=
  { c10_g4 bv with
    current_trick := []
    trick_completed := false
    trick_winner := none }

/-- Statement helper: the computer's brain result is recorded as a blind
bid when its is_blind component is true; no later step of the trace reads
that field. -/
def blinded (g : Game) (brain : Int × Bool) : Game :=
  if brain.2 then { g with computer_blind_bid := some brain.1 } else g

set_option maxHeartbeats 4000000 in
theorem play_after_completed_trick_desyncs_hands (brA brB : Int × Bool) :
    discard_card demoG0 (.pyInt 0) brA = .ok (c10_g1, .success) ∧
    make_bid c10_g1 (.pyInt 4) brB = .ok (blinded (c10_g2 brB.1) brB, .success) ∧
    play_card (blinded (c10_g2 brB.1) brB) (.pyInt 9) =
      .ok (blinded (c10_g3 brB.1) brB, .success) ∧
    play_card (blinded (c10_g3 brB.1) brB) (.pyInt 0) =
      .ok (blinded (c10_g4 brB.1) brB, .success) ∧
    clear_trick (blinded (c10_g4 brB.1) brB) = (blinded (c10_g5 brB.1) brB, .success) ∧
    (∀ bv : Int,
      (c10_g2 bv).phase = .playing ∧ (c10_g2 bv).turn = .player ∧
      (c10_g2 bv).current_trick.length = 1 ∧
      (c10_g2 bv).player_hand.length = 10 ∧ (c10_g2 bv).computer_hand.length = 9 ∧
      (c10_g3 bv).trick_completed = true ∧ (c10_g3 bv).turn = .player ∧
      (c10_g3 bv).current_trick.length = 2 ∧
      (c10_g4 bv).current_trick.length = 3 ∧
      (c10_g5 bv).current_trick = [] ∧ (c10_g5 bv).trick_completed = false ∧
      (c10_g5 bv).hand_over = false ∧
      (c10_g5 bv).player_hand.length = 8 ∧ (c10_g5 bv).computer_hand.length = 9) ∧
    (∀ (g : Game) (b : Int × Bool),
      (blinded g b).player_hand = g.player_hand ∧
      (blinded g b).computer_hand = g.computer_hand ∧
      (blinded g b).current_trick = g.current_trick ∧
      (blinded g b).trick_completed = g.trick_completed ∧
      (blinded g b).turn = g.turn ∧
      (blinded g b).phase = g.phase ∧
      (blinded g b).hand_over = g.hand_over) := by
  obtain ⟨bv, bf⟩ := brB
  have hproj : ∀ (g : Game) (b : Int × Bool),
      (blinded g b).player_hand = g.player_hand ∧
      (blinded g b).computer_hand = g.computer_hand ∧
      (blinded g b).current_trick = g.current_trick ∧
      (blinded g b).trick_completed = g.trick_completed ∧
      (blinded g b).turn = g.turn ∧
      (blinded g b).phase = g.phase ∧
      (blinded g b).hand_over = g.hand_over := by
    intro g b
    cases hb : b.2 <;> simp [blinded, hb]
  have hprops : ∀ bv' : Int,
      (c10_g2 bv').phase = .playing ∧ (c10_g2 bv').turn = .player ∧
      (c10_g2 bv').current_trick.length = 1 ∧
      (c10_g2 bv').player_hand.length = 10 ∧ (c10_g2 bv').computer_hand.length = 9 ∧
      (c10_g3 bv').trick_completed = true ∧ (c10_g3 bv').turn = .player ∧
      (c10_g3 bv').current_trick.length = 2 ∧
      (c10_g4 bv').current_trick.length = 3 ∧
      (c10_g5 bv').current_trick = [] ∧ (c10_g5 bv').trick_completed = false ∧
      (c10_g5 bv').hand_over = false ∧
      (c10_g5 bv').player_hand.length = 8 ∧ (c10_g5 bv').computer_hand.length = 9 :=
    fun _ => ⟨rfl, rfl, rfl, rfl, rfl, rfl, rfl, rfl, rfl, rfl, rfl, rfl, rfl, rfl⟩
  cases bf <;> exact ⟨rfl, rfl, rfl, rfl, rfl, hprops, hproj⟩

end TwoManSpades
